import Mathlib

/-!
Verification of the chem-autotutor build script (src/build.py) against its
natural-language specification. The relevant parts of the script are shallowly
embedded as executable Lean definitions: strings are lists of characters,
fallible code returns Except, the external cheminformatics engine is an opaque
record of functions, and the two-temporary-file name translator is modelled as
a function of an environment describing the external process outcome.
-/

/-- Python exception outcomes that build.py can produce on the modelled paths.
A NameError is a failed global/builtin lookup; an UnboundLocalError is a
reference to a function-local variable before its first assignment;
CalledProcessError is what subprocess.check_call raises on a non-zero exit;
RuntimeError and ValueError carry their message; IndexError comes from
indexing an empty list. -/
inductive PyErr
  | nameError (n : String)
  | unboundLocalError (n : String)
  | calledProcessError (code : Nat)
  | runtimeError (msg : String)
  | indexError
  | valueError (msg : String)
deriving DecidableEq

/-- Characters treated as whitespace by Python str.strip and str.split for the
ASCII data produced by OPSIN: space, tab, newline, carriage return, vertical
tab and form feed. -/
def isPySpace (c : Char) : Bool :=
  c = ' ' || c = '\t' || c = '\n' || c = '\r' || c = '\x0b' || c = '\x0c'

/-- Python str.strip with no arguments: drop leading and trailing whitespace. -/
def pyStrip (l : List Char) : List Char :=
  ((l.dropWhile isPySpace).reverse.dropWhile isPySpace).reverse

/-- First pass of str.splitlines: a carriage return immediately followed by a
newline is a single line break, so collapse the pair to one newline. -/
def normNl : List Char → List Char
  | [] => []
  | '\r' :: '\n' :: rest => '\n' :: normNl rest
  | c :: rest => c :: normNl rest

/-- Second pass of str.splitlines over normalised text: a lone newline or a
lone carriage return ends the current line, and a trailing line break does not
start a new (empty) line, matching Python. acc holds the current line
reversed. -/
def splitNlGo : List Char → List Char → List (List Char)
  | [], acc => [acc.reverse]
  | c :: rest, acc =>
    if c = '\n' || c = '\r' then
      acc.reverse :: (if rest.isEmpty then [] else splitNlGo rest [])
    else splitNlGo rest (c :: acc)

/-- Python str.splitlines: the empty string yields no lines at all. -/
def pySplitlines (l : List Char) : List (List Char) :=
  match normNl l with
  | [] => []
  | l2 => splitNlGo l2 []

/-- Worker for str.split with no arguments: cur holds the current token
reversed; runs of whitespace separate tokens and produce no empty tokens. -/
def splitWsGo : List Char → List Char → List (List Char)
  | [], [] => []
  | [], cur => [cur.reverse]
  | c :: rest, cur =>
    if isPySpace c then
      match cur with
      | [] => splitWsGo rest []
      | _ :: _ => cur.reverse :: splitWsGo rest []
    else splitWsGo rest (c :: cur)

/-- Python str.split with no arguments. -/
def pySplitWs (l : List Char) : List (List Char) := splitWsGo l []

/-- Python list indexing with [0]: IndexError on an empty list. -/
def index0 : List (List Char) → Except PyErr (List Char)
  | [] => .error .indexError
  | x :: _ => .ok x

/-- Embedding of lines 64-69 of build.py, the post-subprocess part of
name_to_smiles:
out = response.strip(); smi = out.splitlines()[0].split()[0];
if not smi: raise RuntimeError("OPSIN returned empty SMILES"); return smi. -/
def extractSmiles (response : List Char) : Except PyErr (List Char) :=
  match index0 (pySplitlines (pyStrip response)) with
  | .error e => .error e
  | .ok line =>
    match index0 (pySplitWs line) with
    | .error e => .error e
    | .ok tok =>
      if tok = [] then .error (.runtimeError "OPSIN returned empty SMILES")
      else .ok tok

/-- Environment describing the outcome of the external OPSIN subprocess:
its exit code and the bytes it left in the response temp file. -/
structure OpsinEnv where
  exitCode : Nat
  response : List Char
deriving DecidableEq

/-- Existence flags for the two temporary files created by name_to_smiles
(the request file and the response file). -/
structure TempFiles where
  reqFile : Bool
  respFile : Bool
deriving DecidableEq

/-- The finally block unlinks a path and suppresses OSError, so after it the
file is gone whether or not it still existed. -/
def unlinkSuppress (_present : Bool) : Bool := false

/-- Embedding of name_to_smiles (lines 45-73 of build.py). mkstemp creates
both temp files; subprocess.check_call raises CalledProcessError on a
non-zero exit; otherwise the response file is parsed by extractSmiles. The
try/finally discipline is modelled by applying the cleanup to the file state
after the body, for every body outcome. Returns the body result together
with the final existence state of the two temp files. -/
def nameToSmilesRun (env : OpsinEnv) : Except PyErr (List Char) × TempFiles :=
  let created : TempFiles := ⟨true, true⟩
  let body : Except PyErr (List Char) :=
    if env.exitCode ≠ 0 then .error (.calledProcessError env.exitCode)
    else extractSmiles env.response
  (body, ⟨unlinkSuppress created.reqFile, unlinkSuppress created.respFile⟩)

deriving instance DecidableEq for Except

/-- ASCII uppercase letter, the regex class of the element-symbol pattern. -/
def isUpperA (c : Char) : Bool := 'A' ≤ c && c ≤ 'Z'

/-- ASCII lowercase letter, the optional second regex class. -/
def isLowerA (c : Char) : Bool := 'a' ≤ c && c ≤ 'z'

/-- ASCII digit, the regex class of the count pattern. -/
def isDigitA (c : Char) : Bool := '0' ≤ c && c ≤ '9'

/-- Scan of re.findall with the raw pattern of one uppercase letter, an
optional lowercase letter (greedy) and zero or more digits (greedy), applied
to the compact formula string (build.py line 119). At each position the
pattern is tried; on failure the scan advances one character. The fuel equals
the remaining input length; every step consumes at least one character, so
fuel never runs out on the initial call. -/
def findElemCountsF : Nat → List Char → List (List Char × List Char)
  | 0, _ => []
  | _ + 1, [] => []
  | fuel + 1, c :: rest =>
    if isUpperA c then
      match rest with
      | c2 :: rest2 =>
        if isLowerA c2 then
          ([c, c2], rest2.takeWhile isDigitA) ::
            findElemCountsF fuel (rest2.dropWhile isDigitA)
        else
          ([c], rest.takeWhile isDigitA) ::
            findElemCountsF fuel (rest.dropWhile isDigitA)
      | [] => [([c], [])]
    else findElemCountsF fuel rest

/-- All matches of the element-count pattern in a formula string. -/
def findElemCounts (l : List Char) : List (List Char × List Char) :=
  findElemCountsF l.length l

/-- Python dict built from an association list: a later binding of the same
key overwrites an earlier one, and lookup of a missing key yields None. -/
def dictLookup (pairs : List (List Char × List Char)) (k : List Char) :
    Option (List Char) :=
  ((pairs.filter (fun p => p.1 == k)).getLast?).map Prod.snd

/-- Python int applied to a non-empty string of decimal digits. -/
def digitsToNat (ds : List Char) : Nat :=
  ds.foldl (fun acc c => acc * 10 + (c.toNat - 48)) 0

/-- Embedding of the local helper get(sym) of compute_facts (lines 121-129):
a missing symbol counts 0, a symbol with empty digits counts 1, and otherwise
the digits are parsed as a decimal integer. -/
def getCount (pairs : List (List Char × List Char)) (sym : List Char) : Nat :=
  match dictLookup pairs sym with
  | none => 0
  | some v => if v = [] then 1 else digitsToNat v

/-- Embedding of formula_du (lines 94-104): degree of unsaturation for
carbon, hydrogen, nitrogen and halogen counts. Python evaluates h_equiv in
exact integer arithmetic and the final expression in float arithmetic; for
these values (an integer divided by two, combined with small integers) the
float arithmetic is exact, so the rational result is the same number. -/
def formula_du (nC nH nN nX : ℕ) : ℚ :=
  let h_equiv : ℤ := (nH : ℤ) + (nX : ℤ) - (nN : ℤ)
  1 + (nC : ℚ) - (h_equiv : ℚ) / 2

/-- The degree-of-unsaturation part of compute_facts (lines 116-139): parse
element counts from the compact formula string and feed carbon, hydrogen,
nitrogen and the halogen sum to formula_du. -/
def compute_du (formula : List Char) : ℚ :=
  let pairs := findElemCounts formula
  formula_du (getCount pairs "C".data) (getCount pairs "H".data)
    (getCount pairs "N".data)
    (getCount pairs "F".data + getCount pairs "Cl".data +
      getCount pairs "Br".data + getCount pairs "I".data)

/-- Python truthiness of an optional string argument: None and the empty
string are falsy. -/
def truthyOpt : Option String → Bool
  | none => false
  | some s => !(s == "")

/-- The external cheminformatics engine used by mol_from_any, as an opaque
record over an abstract molecular-graph type. MolFromSmiles and MolFromInchi
receive whatever optional string the script passes. -/
structure ChemEngine (M : Type) where
  molFromSmiles : Option String → Option M
  molFromInchi : Option String → Option M
  addHs : M → M
  molToSmiles : M → String

/-- Embedding of mol_from_any (lines 78-92): a truthy name is first
translated to SMILES; a truthy inchi is parsed by the InChI grammar and
anything else by the SMILES grammar; a failed parse raises ValueError;
explicit hydrogens are added; the returned canonical string is the SMILES
input echoed verbatim when truthy, else the canonical SMILES of the
hydrogen-augmented graph. -/
def mol_from_any {M : Type} (E : ChemEngine M)
    (translate : String → Except PyErr String)
    (name smiles inchi : Option String) : Except PyErr (M × String) :=
  match (if truthyOpt name then (translate (name.getD "")).map some
         else .ok smiles) with
  | .error e => .error e
  | .ok smiles2 =>
    match (if truthyOpt inchi then E.molFromInchi inchi
           else E.molFromSmiles smiles2) with
    | none => .error (.valueError "Could not parse structure from input.")
    | some mol =>
      let molH := E.addHs mol
      .ok (molH, if truthyOpt smiles2 then smiles2.getD ""
                 else E.molToSmiles molH)

/-- Occurrence of one character list as a contiguous run of another. -/
def infixCL : List Char → List Char → Bool
  | n, [] => n.isEmpty
  | n, c :: rest => n.isPrefixOf (c :: rest) || infixCL n rest

/-- Python substring containment, the in operator on strings. -/
def strContains (hay needle : String) : Bool := infixCL needle.data hay.data

/-- Embedding of make_bullets_from_name (lines 176-198): an empty name yields
no bullets; otherwise each matched keyword appends its fixed sentence, in the
fixed scan order of the source. -/
def make_bullets_from_name (name : String) : List String :=
  if name == "" then []
  else
    (if strContains name "meth" then ["Parent chain includes: meth- (1 carbon)."] else []) ++
    (if strContains name "eth" then ["Parent chain includes: eth- (2 carbons)."] else []) ++
    (if strContains name "prop" then ["Parent chain includes: prop- (3 carbons)."] else []) ++
    (if strContains name "but" then ["Parent chain includes: but- (4 carbons)."] else []) ++
    (if strContains name "pent" then ["Parent chain includes: pent- (5 carbons)."] else []) ++
    (if strContains name "hex" then ["Parent chain includes: hex- (6 carbons)."] else []) ++
    (if strContains name "hept" then ["Parent chain includes: hept- (7 carbons)."] else []) ++
    (if strContains name "oct" then ["Parent chain includes: oct- (8 carbons)."] else []) ++
    (if strContains name "non" then ["Parent chain includes: non- (9 carbons)."] else []) ++
    (if strContains name "dec" then ["Parent chain includes: dec- (10 carbons)."] else []) ++
    (if strContains name "en" then ["Contains a C=C double bond (-en-)."] else []) ++
    (if strContains name "yn" then ["Contains a C≡C triple bond (-yn-)."] else []) ++
    (if strContains name "methyl" then ["Has a methyl (-CH₃) substituent."] else []) ++
    (if strContains name "bromo" then ["Has a bromine substituent."] else [])

/-- Python or between two lists: the first if non-empty, else the second. -/
def pyOrList (a b : List String) : List String := if a.isEmpty then b else a

/-- The unsaturation sentence appended in structure mode (line 287), with the
one-decimal rendering of du abstracted as an already formatted string. -/
def duBullet (duRepr : String) : String :=
  "Double-bond equivalents (DU): " ++ duRepr

/-- Embedding of the bullet construction of structure mode (lines 285-287):
name-derived bullets when the name argument is truthy, else an empty list,
with the unsaturation bullet appended via (bullets or []) + [...]. -/
def structureModeBullets (name : Option String) (duRepr : String) :
    List String :=
  let bullets := if truthyOpt name then make_bullets_from_name (name.getD "")
                 else []
  pyOrList bullets [] ++ [duBullet duRepr]

/-- The fixed 4-line narration of make_script (lines 205-210), with the
numeric renderings of mw and du abstracted as already formatted strings. -/
def narrationLines (title formula mwRepr smiles duRepr : String) :
    List String :=
  ["Title: " ++ title,
   "Formula: " ++ formula ++ " | Exact mass " ++ mwRepr ++ " u | SMILES: " ++ smiles,
   "Unsaturation (rings + double + 2*triple): DU = " ++ duRepr,
   "Naming checklist: longest chain, lowest locants for multiple bonds, then substituents alphabetically."]

/-- Python format {t:02d} for a non-negative t: pad with a leading zero to
width two. -/
def two_digits (n : Nat) : String :=
  if n < 10 then "0" ++ toString n else toString n

/-- The caption-block header of make_script (line 218): block number on its
own line, then the start and end timestamps. -/
def srt_header (i t : Nat) : String :=
  toString i ++ "\n00:00:" ++ two_digits t ++ ",000 --> 00:00:" ++
    two_digits (t + 3) ++ ",000\n"

/-- One SRT block of make_script: header, line text and a final newline. -/
def srt_block (i t : Nat) (line : String) : String :=
  srt_header i t ++ line ++ "\n"

/-- The caption loop of make_script (lines 214-220): block numbers count up
from i and each block starts three seconds after the previous one. -/
def srtBlocks : Nat → Nat → List String → List String
  | _, _, [] => []
  | i, t, line :: rest => srt_block i t line :: srtBlocks (i + 1) (t + 3) rest

/-- Embedding of make_script (lines 200-221): the newline-joined narration
and the newline-joined caption blocks, numbered from 1 and timed from 0. -/
def make_script (title formula mwRepr smiles duRepr : String) :
    String × String :=
  let bullets := narrationLines title formula mwRepr smiles duRepr
  (String.intercalate "\n" bullets,
   String.intercalate "\n" (srtBlocks 1 0 bullets))

/-- The command-line arguments of build.py after argparse: the four mutually
exclusive inputs, the optional subtitle and the output base directory. -/
structure Args where
  name : Option String
  smiles : Option String
  inchi : Option String
  formula : Option String
  tutorial : Option String
  out : String

/-- Python or between two optional strings: the first if truthy, else the
second operand unchanged. -/
def pyOrOpt (a b : Option String) : Option String := if truthyOpt a then a else b

/-- Names bound at module level of build.py: the imports of lines 25-29 and
the module constants and functions. slugify is not among them. -/
def moduleGlobals : List String :=
  ["os", "argparse", "subprocess", "Path", "Template", "Chem", "AllChem",
   "Draw", "rdMolDescriptors", "HERE", "TPL_HTML", "TPL_YT", "OPSIN",
   "ensure_out", "name_to_smiles", "mol_from_any", "formula_du",
   "compute_facts", "make_artifacts", "render_html",
   "make_bullets_from_name", "make_script", "main"]

/-- Python builtins referenced by build.py. slugify is not a builtin. -/
def pyBuiltins : List String :=
  ["print", "str", "int", "round", "dict", "len", "open", "range",
   "enumerate", "list", "RuntimeError", "OSError", "ValueError", "Exception"]

/-- Local variables of main, determined at compile time by the assignments in
its body (lines 243-295). A name in this list that is referenced before its
assignment raises UnboundLocalError; a name in no list raises NameError. -/
def mainLocalVars : List String :=
  ["ap", "g", "args", "title", "outdir", "sdf", "bullets", "mol", "smiles",
   "formula", "mw", "du", "voiceover", "srt", "yt"]

/-- CPython name resolution at a given point of main: an already bound local
resolves; an unbound local raises UnboundLocalError; otherwise module globals
and builtins are consulted; a miss everywhere raises NameError. -/
def lookupErr (bound : List String) (n : String) : Option PyErr :=
  if bound.contains n then none
  else if mainLocalVars.contains n then some (.unboundLocalError n)
  else if moduleGlobals.contains n then none
  else if pyBuiltins.contains n then none
  else some (.nameError n)

/-- Locals of main already assigned when line 254 evaluates slugify(title). -/
def line254Bound : List String := ["ap", "g", "args", "title"]

/-- Locals of main already assigned when the formula-only branch evaluates
the render_html keyword argument smiles=smiles at line 267. -/
def formulaBranchBound : List String :=
  ["ap", "g", "args", "title", "outdir", "sdf", "bullets"]

/-- Embedding of the start of main (lines 253-254): the title is the first
truthy input, and the output-directory expression evaluates slugify(title),
which requires resolving the name slugify. The rest of main is an arbitrary
continuation receiving the arguments and the title; the pair carries the
result and the list of files written into the output directory so far. -/
def mainStart (cont : Args → Option String → Except PyErr Unit × List String)
    (args : Args) : Except PyErr Unit × List String :=
  let title := pyOrOpt args.name (pyOrOpt args.smiles
    (pyOrOpt args.inchi args.formula))
  match lookupErr line254Bound "slugify" with
  | some e => (.error e, [])
  | none => cont args title

/-- The fixed bullet list of formula-only mode (lines 259-263). -/
def formulaModeBullets : List String :=
  ["A single molecular formula can represent many isomers.",
   "Use degree of unsaturation (DU) to infer rings/double/triple bonds.",
   "Provide IUPAC name or SMILES to render a unique 3D structure."]

/-- Embedding of the formula-only branch of main (lines 256-279), entered
when args.formula is truthy and reached only if line 254 resolved: sdf and
bullets are assigned, then the render_html call evaluates its keyword
arguments left to right, so smiles is the first name that must resolve; the
README.txt write at line 277 comes only after that call. The rest of the
branch is an arbitrary continuation. -/
def formulaBranch
    (cont : Args → Option String → String → List String →
      Except PyErr Unit × List String)
    (args : Args) (title : Option String) : Except PyErr Unit × List String :=
  let sdf := ""
  let bullets := formulaModeBullets
  match lookupErr formulaBranchBound "smiles" with
  | some e => (.error e, [])
  | none => cont args title sdf bullets

/-- The arguments of the run the spec tests: formula-only mode with input
C8H12Br and the default output directory. -/
def c8h12brArgs : Args := ⟨none, none, none, some "C8H12Br", none, "out"⟩

/-- Toy instance of the external engine used to witness the mol_from_any
theorem: a molecular graph is a number, parsing measures the string, addHs
adds a constant. -/
def toyEngine : ChemEngine Nat where
  molFromSmiles := fun o => o.map String.length
  molFromInchi := fun o => o.map (fun s => s.length + 100)
  addHs := fun m => m + 1000
  molToSmiles := fun m => toString m

/-- Toy name translator used alongside toyEngine. -/
def toyTranslate : String → Except PyErr String := fun _ => .ok "CCO"

theorem splitWsGo_ne_nil :
    ∀ (l cur : List Char), ∀ t ∈ splitWsGo l cur, t ≠ [] := by
  intro l
  induction l with
  | nil =>
      intro cur t ht
      cases cur with
      | nil => simp [splitWsGo] at ht
      | cons a as =>
          simp [splitWsGo] at ht
          subst ht
          simp
  | cons c rest ih =>
      intro cur t ht
      by_cases hc : isPySpace c
      · cases cur with
        | nil =>
            simp [splitWsGo, hc] at ht
            exact ih [] t ht
        | cons a as =>
            simp [splitWsGo, hc] at ht
            rcases ht with ht | ht
            · subst ht; simp
            · exact ih [] t ht
      · simp [splitWsGo, hc] at ht
        exact ih (c :: cur) t ht

theorem splitWsGo_no_space :
    ∀ (l cur : List Char), (∀ c ∈ cur, isPySpace c = false) →
      ∀ t ∈ splitWsGo l cur, ∀ c ∈ t, isPySpace c = false := by
  intro l
  induction l with
  | nil =>
      intro cur hcur t ht c hct
      cases cur with
      | nil => simp [splitWsGo] at ht
      | cons a as =>
          simp [splitWsGo] at ht
          subst ht
          have hca : c ∈ as ∨ c = a := by simpa using hct
          rcases hca with hx | hx
          · exact hcur c (by simp [hx])
          · exact hcur c (by simp [hx])
  | cons d rest ih =>
      intro cur hcur t ht c hct
      by_cases hd : isPySpace d
      · cases cur with
        | nil =>
            simp [splitWsGo, hd] at ht
            exact ih [] (by simp) t ht c hct
        | cons a as =>
            simp [splitWsGo, hd] at ht
            rcases ht with ht | ht
            · subst ht
              have hca : c ∈ as ∨ c = a := by simpa using hct
              rcases hca with hx | hx
              · exact hcur c (by simp [hx])
              · exact hcur c (by simp [hx])
            · exact ih [] (by simp) t ht c hct
      · simp [splitWsGo, hd] at ht
        refine ih (d :: cur) ?_ t ht c hct
        intro x hx
        rcases List.mem_cons.mp hx with hx | hx
        · subst hx; simpa using hd
        · exact hcur x hx

theorem extract_ok_inv (response tok : List Char)
    (h : extractSmiles response = .ok tok) :
    tok ≠ [] ∧ ∀ c ∈ tok, isPySpace c = false := by
  cases h1 : pySplitlines (pyStrip response) with
  | nil => simp [extractSmiles, h1, index0] at h
  | cons line restLines =>
      cases h2 : pySplitWs line with
      | nil => simp [extractSmiles, h1, h2, index0] at h
      | cons tk tks =>
          by_cases h3 : tk = []
          · simp [extractSmiles, h1, h2, index0, h3] at h
          · simp [extractSmiles, h1, h2, index0, h3] at h
            subst h
            have hmem : tk ∈ pySplitWs line := by
              rw [h2]; exact List.mem_cons_self _ _
            exact ⟨h3, splitWsGo_no_space line [] (by simp) tk hmem⟩

theorem extract_no_runtime (response : List Char) (msg : String) :
    extractSmiles response ≠ .error (.runtimeError msg) := by
  cases h1 : pySplitlines (pyStrip response) with
  | nil => simp [extractSmiles, h1, index0]
  | cons line restLines =>
      cases h2 : pySplitWs line with
      | nil => simp [extractSmiles, h1, h2, index0]
      | cons tk tks =>
          have htk : tk ≠ [] := by
            refine splitWsGo_ne_nil line [] tk ?_
            show tk ∈ pySplitWs line
            rw [h2]; exact List.mem_cons_self _ _
          simp [extractSmiles, h1, h2, index0, htk]

theorem extract_strip_nil (response : List Char) (h : pyStrip response = []) :
    extractSmiles response = .error .indexError := by
  simp [extractSmiles, h, pySplitlines, normNl, index0]

/-- C10: whenever name_to_smiles returns normally, the returned token is a
non-empty string containing no whitespace; the explicit empty-string check is
unreachable (the run never fails with the RuntimeError it would raise); and an
empty or all-whitespace response file instead raises an unguarded IndexError
from the list indexing. -/
theorem c10_name_to_smiles_token_invariants :
    ∀ env : OpsinEnv,
      (∀ tok, (nameToSmilesRun env).1 = .ok tok →
        tok ≠ [] ∧ ∀ c ∈ tok, isPySpace c = false) ∧
      (∀ msg, (nameToSmilesRun env).1 ≠ .error (.runtimeError msg)) ∧
      (env.exitCode = 0 → pyStrip env.response = [] →
        (nameToSmilesRun env).1 = .error .indexError) := by
  intro env
  by_cases hz : env.exitCode = 0
  · refine ⟨?_, ?_, ?_⟩
    · intro tok h
      simp [nameToSmilesRun, hz] at h
      exact extract_ok_inv env.response tok h
    · intro msg h
      simp [nameToSmilesRun, hz] at h
      exact extract_no_runtime env.response msg h
    · intro _ hs
      simp [nameToSmilesRun, hz]
      exact extract_strip_nil env.response hs
  · refine ⟨?_, ?_, ?_⟩
    · intro tok h
      simp [nameToSmilesRun, hz] at h
    · intro msg h
      simp [nameToSmilesRun, hz] at h
    · intro h0 _
      exact absurd h0 hz

/-- Witness for C10 at concrete inputs: a tab-delimited OPSIN response yields
the non-empty whitespace-free first token, and an all-whitespace response
yields IndexError. -/
theorem c10_name_to_smiles_token_invariants_witness :
    ("CCO".data ≠ [] ∧ ∀ c ∈ "CCO".data, isPySpace c = false) ∧
    (nameToSmilesRun ⟨0, "  \n ".data⟩).1 = .error .indexError :=
  ⟨(c10_name_to_smiles_token_invariants ⟨0, "CCO\tethanol".data⟩).1 "CCO".data (by decide),
   (c10_name_to_smiles_token_invariants ⟨0, "  \n ".data⟩).2.2 rfl (by decide)⟩

/-- Counterexample for C5 as stated: with exit code zero and an empty response
file, name_to_smiles fails with IndexError, which is not the designated
translation error (the RuntimeError raised by the empty-SMILES guard). -/
theorem c5_empty_response_counterexample :
    nameToSmilesRun ⟨0, []⟩ = (.error .indexError, ⟨false, false⟩) ∧
    (Except.error PyErr.indexError : Except PyErr (List Char)) ≠
      .error (.runtimeError "OPSIN returned empty SMILES") := by
  exact ⟨rfl, by decide⟩

/-- C5 amended: when the external process exits zero but the response file is
empty or all-whitespace (its stripped content is empty), name_to_smiles fails
with an unguarded IndexError rather than the designated translation error. -/
theorem c5_empty_response_raises_index_error :
    ∀ env : OpsinEnv, env.exitCode = 0 → pyStrip env.response = [] →
      (nameToSmilesRun env).1 = .error .indexError := by
  intro env h0 hs
  simp [nameToSmilesRun, h0]
  exact extract_strip_nil env.response hs

/-- Witness for the amended C5 at a concrete all-whitespace response. -/
theorem c5_empty_response_raises_index_error_witness :
    (nameToSmilesRun ⟨0, " \t ".data⟩).1 = .error .indexError :=
  c5_empty_response_raises_index_error ⟨0, " \t ".data⟩ rfl (by decide)

/-- C6: name_to_smiles deletes both temporary files on every exit path. The
first conjunct covers every environment (hence every exit path); the remaining
conjuncts exhibit the three paths named by the claim: normal return, non-zero
subprocess exit, and another exception (IndexError) raised inside the body. -/
theorem c6_temp_files_always_deleted :
    (∀ env : OpsinEnv, (nameToSmilesRun env).2 = ⟨false, false⟩) ∧
    (nameToSmilesRun ⟨0, "CCO".data⟩).1 = .ok "CCO".data ∧
    (nameToSmilesRun ⟨2, []⟩).1 = .error (.calledProcessError 2) ∧
    (nameToSmilesRun ⟨0, "\n".data⟩).1 = .error .indexError := by
  refine ⟨fun env => rfl, by decide, by decide, by decide⟩

/-- C3: for all non-negative counts, formula_du returns exactly
1 + C - (H + X - N)/2 as an untruncated half-integer-valued rational, and for
the element counts of C2H6O it returns 0, both at the level of formula_du and
through the full compute_facts parsing pipeline. -/
theorem c3_formula_du_closed_form :
    ∀ nC nH nN nX : ℕ,
      formula_du nC nH nN nX =
        1 + (nC : ℚ) - ((nH : ℚ) + (nX : ℚ) - (nN : ℚ)) / 2 ∧
      (∃ k : ℤ, formula_du nC nH nN nX = (k : ℚ) / 2) ∧
      formula_du 2 6 0 0 = 0 ∧
      compute_du "C2H6O".data = 0 := by
  intro nC nH nN nX
  have hC : getCount (findElemCounts "C2H6O".data) "C".data = 2 := by decide
  have hH : getCount (findElemCounts "C2H6O".data) "H".data = 6 := by decide
  have hN : getCount (findElemCounts "C2H6O".data) "N".data = 0 := by decide
  have hF : getCount (findElemCounts "C2H6O".data) "F".data = 0 := by decide
  have hCl : getCount (findElemCounts "C2H6O".data) "Cl".data = 0 := by decide
  have hBr : getCount (findElemCounts "C2H6O".data) "Br".data = 0 := by decide
  have hI : getCount (findElemCounts "C2H6O".data) "I".data = 0 := by decide
  refine ⟨?_, ?_, by norm_num [formula_du],
    by simp only [compute_du, hC, hH, hN, hF, hCl, hBr, hI]; norm_num [formula_du]⟩
  · unfold formula_du
    push_cast
    ring
  · refine ⟨2 + 2 * (nC : ℤ) - ((nH : ℤ) + (nX : ℤ) - (nN : ℤ)), ?_⟩
    unfold formula_du
    push_cast
    ring

/-- C4: element-count parsing of the compact formula string follows the
pattern of one uppercase letter, an optional lowercase letter and optional
digits; an absent symbol counts 0 and empty digits count 1; and the input
C8H12Br yields C=8, H=12, Br=1 with N, F, Cl and I each 0. -/
theorem c4_element_count_parsing :
    (∀ pairs sym, dictLookup pairs sym = none → getCount pairs sym = 0) ∧
    (∀ pairs sym, dictLookup pairs sym = some [] → getCount pairs sym = 1) ∧
    findElemCounts "C8H12Br".data =
      [("C".data, "8".data), ("H".data, "12".data), ("Br".data, [])] ∧
    getCount (findElemCounts "C8H12Br".data) "C".data = 8 ∧
    getCount (findElemCounts "C8H12Br".data) "H".data = 12 ∧
    getCount (findElemCounts "C8H12Br".data) "Br".data = 1 ∧
    getCount (findElemCounts "C8H12Br".data) "N".data = 0 ∧
    getCount (findElemCounts "C8H12Br".data) "F".data = 0 ∧
    getCount (findElemCounts "C8H12Br".data) "Cl".data = 0 ∧
    getCount (findElemCounts "C8H12Br".data) "I".data = 0 := by
  refine ⟨?_, ?_, by decide, by decide, by decide, by decide, by decide,
    by decide, by decide, by decide⟩
  · intro pairs sym h
    simp [getCount, h]
  · intro pairs sym h
    simp [getCount, h]

/-- Witness for C4 at concrete inputs: the absent symbol N counts 0 and the
digitless symbol Br counts 1 in the parse of C8H12Br. -/
theorem c4_element_count_parsing_witness :
    getCount (findElemCounts "C8H12Br".data) "N".data = 0 ∧
    getCount (findElemCounts "C8H12Br".data) "Br".data = 1 :=
  ⟨c4_element_count_parsing.1 (findElemCounts "C8H12Br".data) "N".data
      (by decide),
   c4_element_count_parsing.2.1 (findElemCounts "C8H12Br".data) "Br".data
      (by decide)⟩

/-- C8: mol_from_any echoes a SMILES input (direct or name-translated)
verbatim as the canonical string, computes the canonical SMILES from the
hydrogen-augmented graph only for an InChI input, always returns the graph
with explicit hydrogens added, and raises the designated ValueError when the
parse yields no graph. -/
theorem c8_mol_from_any_canonical {M : Type} (E : ChemEngine M)
    (translate : String → Except PyErr String) :
    (∀ s m, s ≠ "" → E.molFromSmiles (some s) = some m →
      mol_from_any E translate none (some s) none = .ok (E.addHs m, s)) ∧
    (∀ s, s ≠ "" → E.molFromSmiles (some s) = none →
      mol_from_any E translate none (some s) none =
        .error (.valueError "Could not parse structure from input.")) ∧
    (∀ n s m, n ≠ "" → translate n = .ok s → s ≠ "" →
      E.molFromSmiles (some s) = some m →
      mol_from_any E translate (some n) none none = .ok (E.addHs m, s)) ∧
    (∀ i m, i ≠ "" → E.molFromInchi (some i) = some m →
      mol_from_any E translate none none (some i) =
        .ok (E.addHs m, E.molToSmiles (E.addHs m))) ∧
    (∀ i, i ≠ "" → E.molFromInchi (some i) = none →
      mol_from_any E translate none none (some i) =
        .error (.valueError "Could not parse structure from input.")) := by
  refine ⟨?_, ?_, ?_, ?_, ?_⟩
  · intro s m hs hm
    simp [mol_from_any, truthyOpt, hs, hm]
  · intro s hs hm
    simp [mol_from_any, truthyOpt, hs, hm]
  · intro n s m hn ht hs hm
    simp [mol_from_any, truthyOpt, Except.map, hn, ht, hs, hm]
  · intro i m hi hm
    simp [mol_from_any, truthyOpt, hi, hm]
  · intro i hi hm
    simp [mol_from_any, truthyOpt, hi, hm]

/-- Witness for C8 on the toy engine: SMILES echo, name-translated echo, and
the InChI path returning the canonical string of the hydrogen-augmented
graph. -/
theorem c8_mol_from_any_canonical_witness :
    mol_from_any toyEngine toyTranslate none (some "CCO") none =
      .ok (toyEngine.addHs 3, "CCO") ∧
    mol_from_any toyEngine toyTranslate (some "ethanol") none none =
      .ok (toyEngine.addHs 3, "CCO") ∧
    mol_from_any toyEngine toyTranslate none none (some "InChI=1S/CH4") =
      .ok (toyEngine.addHs 112, toyEngine.molToSmiles (toyEngine.addHs 112)) :=
  ⟨(c8_mol_from_any_canonical toyEngine toyTranslate).1 "CCO" 3
      (by decide) rfl,
   (c8_mol_from_any_canonical toyEngine toyTranslate).2.2.1 "ethanol" "CCO" 3
      (by decide) rfl (by decide) rfl,
   (c8_mol_from_any_canonical toyEngine toyTranslate).2.2.2.1 "InChI=1S/CH4"
      112 (by decide) rfl⟩

/-- C9: in structure mode the bullet list handed to the renderer always ends
with the unsaturation sentence, which follows any name-derived bullets. -/
theorem c9_du_bullet_last :
    ∀ (name : Option String) (duRepr : String),
      (structureModeBullets name duRepr).getLast? = some (duBullet duRepr) ∧
      (structureModeBullets name duRepr).dropLast =
        (if truthyOpt name then make_bullets_from_name (name.getD "")
         else []) := by
  intro name duRepr
  have hor : ∀ a : List String, pyOrList a [] = a := by
    intro a
    cases a <;> simp [pyOrList]
  constructor
  · simp [structureModeBullets, hor]
  · simp [structureModeBullets, hor]

/-- C7: for the fixed 4-line narration the caption output is exactly 4
numbered blocks; block i carries the text of narration line i and spans from
3*(i-1) to 3*i seconds, so the windows are sequential, non-overlapping and
gap-free, starting at 00:00:00,000, with timestamps rendered in the
hours:minutes:seconds,milliseconds format. -/
theorem c7_captions_four_sequential_blocks :
    ∀ title formula mwRepr smiles duRepr : String,
      (narrationLines title formula mwRepr smiles duRepr).length = 4 ∧
      (make_script title formula mwRepr smiles duRepr).2 =
        String.intercalate "\n"
          [srt_block 1 0 ("Title: " ++ title),
           srt_block 2 3 ("Formula: " ++ formula ++ " | Exact mass " ++
             mwRepr ++ " u | SMILES: " ++ smiles),
           srt_block 3 6
             ("Unsaturation (rings + double + 2*triple): DU = " ++ duRepr),
           srt_block 4 9
             "Naming checklist: longest chain, lowest locants for multiple bonds, then substituents alphabetically."] ∧
      srt_header 1 0 = "1\n00:00:00,000 --> 00:00:03,000\n" ∧
      srt_header 2 3 = "2\n00:00:03,000 --> 00:00:06,000\n" ∧
      srt_header 3 6 = "3\n00:00:06,000 --> 00:00:09,000\n" ∧
      srt_header 4 9 = "4\n00:00:09,000 --> 00:00:12,000\n" := by
  intro title formula mwRepr smiles duRepr
  refine ⟨rfl, rfl, by decide, by decide, by decide, by decide⟩

/-- C2: for every invocation of main, in any input mode and whatever the rest
of main would do, evaluating the output-directory expression at line 254
raises NameError for the undefined name slugify, and no output file has been
written. -/
theorem c2_main_always_raises_name_error :
    ∀ (cont : Args → Option String → Except PyErr Unit × List String)
      (args : Args),
      mainStart cont args = (.error (.nameError "slugify"), []) := by
  intro cont args
  have h : lookupErr line254Bound "slugify" = some (.nameError "slugify") := by
    decide
  simp [mainStart, h]

/-- C1 (code bug): in formula-only mode with input C8H12Br the run writes no
file at all, so the output directory does not get the README.txt the spec
requires. Line 254 raises NameError for slugify before anything is written,
and even if slugify resolved, the formula-only branch raises
UnboundLocalError for smiles inside the render_html call at line 267, still
before the README.txt write at line 277. -/
theorem c1_formula_mode_readme_never_written :
    (∀ cont, mainStart cont c8h12brArgs = (.error (.nameError "slugify"), [])) ∧
    (∀ cont, formulaBranch cont c8h12brArgs (some "C8H12Br") =
      (.error (.unboundLocalError "smiles"), [])) := by
  constructor
  · intro cont
    have h : lookupErr line254Bound "slugify" = some (.nameError "slugify") := by
      decide
    simp [mainStart, h]
  · intro cont
    have h : lookupErr formulaBranchBound "smiles" =
        some (.unboundLocalError "smiles") := by decide
    simp [formulaBranch, h]
